import Mathlib

/-!
Verification of the booking-system event core (Go sources under
`internal/common/kafka`, `internal/booking/domain`, `internal/user/service`)
against its natural-language specification.

Shallow embedding conventions:
* Go `error` values are `Option String` (`none` = nil error) or small
  inductive error types where the code distinguishes kinds.
* The broker, the repository and the handlers are oracles: functions from
  the call/attempt index to the outcome the external collaborator produced.
* Real time is modelled in whole seconds; a `context.Context` is modelled
  by the instant (if any) at which its Done channel closes
  (`cancelAt : Option Nat`).  A `select` between `time.After(d)` started at
  `elapsed` and `ctx.Done()` takes the cancellation branch exactly when the
  context fires strictly before the timer, i.e. when `cancelAt < elapsed + d`.
* Loops carry a fuel argument equal to the number of remaining iterations,
  so `for i := 0; i < maxRetries; i++` becomes structural recursion with
  initial fuel `maxRetries`.
* The functions also return a trace of externally visible events
  (broker write attempts, handler invocations, completed backoff sleeps)
  so that attempt counts and wait durations can be stated exactly.
-/

namespace BookingSystem

/-- Externally visible events of the producer/consumer retry loops. -/
inductive Ev where
  /-- `p.writer.WriteMessages` called for attempt `i` (0-based). -/
  | attempt (i : Nat)
  /-- One loop iteration of `processWithRetry` resolved message type `mt`
      and looked it up in the handler registry. -/
  | resolve (mt : String)
  /-- The registered handler was invoked, attempt `i` (0-based). -/
  | invoke (i : Nat)
  /-- A backoff sleep of `d` seconds ran to completion. -/
  | wait (d : Nat)
  deriving Repr, DecidableEq

/-- Go error values surfaced by the retry loops. -/
inductive GoError where
  /-- `ctx.Err()` after the context's Done channel closed. -/
  | cancelled
  /-- An underlying broker write error. -/
  | broker (e : String)
  deriving Repr, DecidableEq

/-- The `select { case <-time.After(backoff): case <-ctx.Done(): }` race:
the cancellation branch wins iff the context fires strictly before the
timer completes (this includes a context that was already done when the
sleep started). -/
def cancelledDuring : Option Nat → Nat → Nat → Bool
  | none, _, _ => false
  | some tc, elapsed, d => tc < elapsed + d

/-! ### Producer (`internal/common/kafka/consumer.go`, `writeWithRetry` / `Produce`)

The Go source is

```
func (p *Producer) writeWithRetry(ctx context.Context, msg kafka.Message) error {
    var err error
    for i:=0 ; i<p.maxRetries ; i++ {
        err := p.writer.WriteMessages(ctx,msg)   // NB: `:=` shadows the outer err
        if err == nil { return nil }
        if i<p.maxRetries - 1 {
            backoff := time.Duration(i+1) * time.Second
            select {
            case <-time.After(backoff):
            case <-ctx.Done():
                return ctx.Err()
            }
        }
    }
    return err                                    // the OUTER err, never assigned
}
```

`broker i` is the oracle for the `WriteMessages` call of attempt `i`
(`none` = the write succeeded, `some e` = it failed with error `e`).
The inner `err :=` of the source creates a fresh local variable, so the
`outerErr` argument below is threaded through unchanged, exactly as in the
source, and is what the final `return err` yields. -/

/-- One step of `writeWithRetry`'s for-loop: fuel = remaining iterations,
`i` = attempt index, `elapsed` = seconds spent so far, `outerErr` = the
outer `err` variable of the source. -/
def writeLoop (broker : Nat → Option String) (cancelAt : Option Nat) :
    Nat → Nat → Nat → Option String → Option GoError × List Ev
  | 0, _, _, outerErr => (outerErr.map GoError.broker, [])
  | fuel + 1, i, elapsed, outerErr =>
    match broker i with
    | none => (none, [Ev.attempt i])
    | some _innerErr =>
      match fuel with
      | 0 => (outerErr.map GoError.broker, [Ev.attempt i])
      | f + 1 =>
        if cancelledDuring cancelAt elapsed (i + 1) then
          (some GoError.cancelled, [Ev.attempt i])
        else
          let next := writeLoop broker cancelAt (f + 1) (i + 1) (elapsed + (i + 1)) outerErr
          (next.1, Ev.attempt i :: Ev.wait (i + 1) :: next.2)

/-- `Producer.maxRetries`, set to 3 in `NewProducer`. -/
def producerMaxRetries : Nat := 3

/-- `(p *Producer).writeWithRetry`: result (`none` = nil error) and event trace. -/
def writeWithRetry (broker : Nat → Option String) (cancelAt : Option Nat)
    (maxRetries : Nat) : Option GoError × List Ev :=
  writeLoop broker cancelAt maxRetries 0 0 none

/-- Result of `Producer.Produce`. -/
inductive ProduceResult where
  /-- `Produce` returned nil: the caller observes success. -/
  | success
  /-- `json.Marshal` failed; counted under the "serialization" label. -/
  | serializationError
  /-- `writeWithRetry` returned a non-nil error, wrapped as
      "failed to produce message to topic ...". -/
  | publishError (topic : String) (e : GoError)
  deriving Repr, DecidableEq

/-- `(p *Producer).Produce`: marshal the payload, then `writeWithRetry`.
`serializeOk` is the oracle for `json.Marshal` succeeding. -/
def Produce (serializeOk : Bool) (broker : Nat → Option String)
    (cancelAt : Option Nat) (topic : String) : ProduceResult :=
  if serializeOk = false then ProduceResult.serializationError
  else
    match (writeWithRetry broker cancelAt producerMaxRetries).1 with
    | some e => ProduceResult.publishError topic e
    | none => ProduceResult.success

/-! ### Consumer (`internal/common/kafka` consumer file, `processWithRetry` / `Start`)

The payload bytes of a message either fail `json.Unmarshal` into
`map[string]any` or decode to a JSON value; `json.Unmarshal` into a map
succeeds exactly when the top-level JSON value is an object. -/

/-- A JSON value, for modelling the consumer's payload sniffing. -/
inductive Json where
  | null
  | bool (b : Bool)
  | num (n : Int)
  | str (s : String)
  | arr (elems : List Json)
  | obj (fields : List (String × Json))

/-- The `value []byte` of a Kafka message, as seen by `json.Unmarshal`. -/
inductive Payload where
  /-- Bytes that are not valid JSON (or not a JSON object):
      `json.Unmarshal(value, &payload)` returns a non-nil error. -/
  | undecodable (raw : String)
  /-- Bytes that decode to the JSON value `j`. -/
  | json (j : Json)

/-- Kafka message headers as the list built in `processMessage`
(`headers[string(header.Key)] = string(header.Value)`). -/
def Headers := List (String × String)

/-- Go map indexing on a map built by inserting the pairs in order:
the last pair with the key wins, a missing key yields `""`. -/
def goMapGet (m : List (String × String)) (k : String) : String :=
  (m.reverse.lookup k).getD ""

/-- Reading a field of a Go `map[string]any` decoded from a JSON object:
duplicate keys in the object end up with the last occurrence. -/
def jsonField (fields : List (String × Json)) (k : String) : Option Json :=
  fields.reverse.lookup k

/-- The payload-sniffing fallback of `processWithRetry`: decode the payload,
read its `type` field, keep it only when it is a JSON string (the
`payload["type"].(string)` type assertion); otherwise the message type
stays `""`. -/
def payloadTypeField : Payload → String
  | Payload.json (Json.obj fields) =>
    match jsonField fields "type" with
    | some (Json.str s) => s
    | _ => ""
  | _ => ""

/-- Message-type resolution performed at the top of each loop iteration of
`processWithRetry`: the `message-type` header when non-empty, else the
payload's `type` field. -/
def resolveMessageType (value : Payload) (headers : List (String × String)) : String :=
  let mt := goMapGet headers "message-type"
  if mt = "" then payloadTypeField value else mt

/-- A registered `MessageHandler`, as an oracle from the invocation index
(0-based attempt number, the handler always receives the same
`key/value/headers`) to the error it returns (`none` = nil). -/
def Handler := Nat → Option String

/-- Result of `processWithRetry`. -/
inductive ProcResult where
  /-- A handler invocation returned nil: the message is processed. -/
  | ok
  /-- `ctx.Err()` surfaced from the backoff `select`. -/
  | cancelled
  /-- "no handler found for message type: `mt`" (returned without retrying). -/
  | noHandler (mt : String)
  /-- "failed to process message after `maxRetries` retries", wrapping the
      loop's `err` variable (the last handler error). -/
  | exhausted (maxRetries : Nat) (lastErr : Option String)
  deriving Repr, DecidableEq

/-- `Consumer.maxRetries`, set to 3 in `NewConsumer`. -/
def consumerMaxRetries : Nat := 3

/-- One step of `processWithRetry`'s for-loop: fuel = remaining iterations,
`i` = attempt index, `elapsed` = seconds spent so far, `err` = the loop's
`err` variable (assigned, not shadowed, by `err = handler(...)`). -/
def procLoop (handlers : String → Option Handler) (cancelAt : Option Nat)
    (value : Payload) (headers : List (String × String)) (maxRetries : Nat) :
    Nat → Nat → Nat → Option String → ProcResult × List Ev
  | 0, _, _, err => (ProcResult.exhausted maxRetries err, [])
  | 1, i, _, _err =>
    match handlers (resolveMessageType value headers) with
    | none =>
      (ProcResult.noHandler (resolveMessageType value headers),
       [Ev.resolve (resolveMessageType value headers)])
    | some h =>
      match h i with
      | none =>
        (ProcResult.ok, [Ev.resolve (resolveMessageType value headers), Ev.invoke i])
      | some e =>
        (ProcResult.exhausted maxRetries (some e),
         [Ev.resolve (resolveMessageType value headers), Ev.invoke i])
  | fuel + 2, i, elapsed, _err =>
    match handlers (resolveMessageType value headers) with
    | none =>
      (ProcResult.noHandler (resolveMessageType value headers),
       [Ev.resolve (resolveMessageType value headers)])
    | some h =>
      match h i with
      | none =>
        (ProcResult.ok, [Ev.resolve (resolveMessageType value headers), Ev.invoke i])
      | some e =>
        if cancelledDuring cancelAt elapsed (i + 1) then
          (ProcResult.cancelled,
           [Ev.resolve (resolveMessageType value headers), Ev.invoke i])
        else
          let next :=
            procLoop handlers cancelAt value headers maxRetries
              (fuel + 1) (i + 1) (elapsed + (i + 1)) (some e)
          (next.1,
           Ev.resolve (resolveMessageType value headers) :: Ev.invoke i ::
             Ev.wait (i + 1) :: next.2)

/-- `(c *Consumer).processWithRetry`: result and event trace. -/
def processWithRetry (handlers : String → Option Handler) (cancelAt : Option Nat)
    (value : Payload) (headers : List (String × String)) : ProcResult × List Ev :=
  procLoop handlers cancelAt value headers consumerMaxRetries consumerMaxRetries 0 0 none

/-- Outcome of running `Start`'s infinite for-loop for a bounded number of
rounds; each round is one `select` followed (in the default branch) by one
`processMessage` call. `errorsLogged` collects the per-message errors the
loop merely logged. -/
inductive StartOutcome where
  /-- The fuel ran out with the loop still going: `Start` has not returned. -/
  | running (errorsLogged : List String)
  /-- `Start` returned the error `e`. -/
  | returned (e : GoError) (errorsLogged : List String)
  deriving Repr, DecidableEq

/-- Prepend a logged per-message error to an outcome. -/
def StartOutcome.addLog (s : String) : StartOutcome → StartOutcome
  | StartOutcome.running l => StartOutcome.running (s :: l)
  | StartOutcome.returned e l => StartOutcome.returned e (s :: l)

/-- Whether the governing context's Done channel is closed at round `k`
(`cancelRound` = first round at which it is closed). -/
def cancelFired : Option Nat → Nat → Bool
  | none, _ => false
  | some c, k => c ≤ k

/-- `(c *Consumer).Start`: each round, `select` takes the `ctx.Done()`
branch when the context is done and returns `ctx.Err()`; otherwise the
default branch calls `processMessage`, whose error (`procErr k` for round
`k`) is only logged before the loop continues. -/
def StartRun (cancelRound : Option Nat) (procErr : Nat → Option String) :
    Nat → Nat → StartOutcome
  | 0, _ => StartOutcome.running []
  | fuel + 1, k =>
    if cancelFired cancelRound k then StartOutcome.returned GoError.cancelled []
    else
      match procErr k with
      | some e => (StartRun cancelRound procErr fuel (k + 1)).addLog e
      | none => StartRun cancelRound procErr fuel (k + 1)

/-! ### Booking domain (`internal/booking/domain/booking.go`)

`time.Time` instants are modelled as integers; `t.Before(u)` is `t < u`
and `t.After(u)` is `t > u`. -/

/-- `domain.BookingStatus`. -/
inductive BookingStatus where
  | pending
  | confirmed
  | cancelled
  | completed
  | failed
  deriving Repr, DecidableEq

/-- `domain.Booking`. `amount` (a Go `float64`) is carried opaquely. -/
structure Booking where
  id : String
  userID : String
  resourceID : String
  startTime : Int
  endTime : Int
  status : BookingStatus
  amount : Float
  currency : String
  paymentID : Option String
  reservationID : Option String
  notes : String
  metadata : String
  createdAt : Int
  updatedAt : Int
  userName : String
  userEmail : String
  resourceName : String

/-- `(b *Booking).IsActive`. -/
def Booking.IsActive (b : Booking) : Bool :=
  b.status == BookingStatus.pending || b.status == BookingStatus.confirmed

/-- `(b *Booking).IsOverlapping(other)`:
`b.ResourceID == other.ResourceID && b.StartTime.Before(other.EndTime) && b.EndTime.After(other.StartTime)`. -/
def Booking.IsOverlapping (b other : Booking) : Bool :=
  b.resourceID == other.resourceID &&
    decide (b.startTime < other.endTime) && decide (b.endTime > other.startTime)

/-! ### User service (`internal/user/service/service.go`, user domain)

Repository and producer calls are oracles supplied as explicit
dependencies; a call that mutates its argument through a pointer
(`repo.Create`) is modelled as returning the mutated value. -/

/-- `domain.User`. -/
structure User where
  id : String
  email : String
  name : String
  password : String
  role : String
  active : Bool
  createdAt : Int
  updatedAt : Int
  deriving Repr, DecidableEq

/-- `(u *User).ToPublic()`: a copy whose `Password` field is left at the
Go zero value `""`. -/
def ToPublic (u : User) : User :=
  { id := u.id, email := u.email, name := u.name, password := ""
    role := u.role, active := u.active
    createdAt := u.createdAt, updatedAt := u.updatedAt }

/-- `domain.CreateUserRequest`. -/
structure CreateUserRequest where
  email : String
  name : String
  password : String
  deriving Repr, DecidableEq

/-- `domain.UpdateUserRequest` (empty string = field omitted). -/
structure UpdateUserRequest where
  name : String
  email : String
  deriving Repr, DecidableEq

/-- Service-level error kinds (`internal/common/errors` constructors used
by the service, plus repository errors passed through). -/
inductive SvcError where
  /-- `validation.ValidateStruct` / `NewValidationError`. -/
  | validation
  /-- `NewConflictError("user with this email already exists")`. -/
  | conflictEmail
  /-- `NewInternalError("failed to hash password", err)`. -/
  | internalHash
  /-- An error returned by the repository, passed through unchanged. -/
  | repo (e : String)
  deriving Repr, DecidableEq

/-- Observable outcome of a service write call: the returned
`(user, error)` pair plus whether a "failed to publish ... event" log line
was emitted. -/
structure SvcCall where
  result : Except SvcError User
  publishFailureLogged : Bool
  deriving Repr

/-- The Go zero value of `domain.User`. -/
def emptyUser : User :=
  { id := "", email := "", name := "", password := "", role := ""
    active := false, createdAt := 0, updatedAt := 0 }

/-- Collaborator-call outcomes consumed by `CreateUser`. -/
structure CreateUserDeps where
  /-- `validation.ValidateStruct(req)` succeeded. -/
  validateOk : Bool
  /-- `repo.GetByEmail` outcome: `(user or nil, error or nil)`. -/
  getByEmail : String → Option User × Option String
  /-- `bcrypt.GenerateFromPassword` outcome (`none` = error). -/
  hashPassword : String → Option String
  /-- `repo.Create` outcome: the user as mutated by the repository
      (id, timestamps, ...) and the error. -/
  create : User → User × Option String
  /-- `producer.Produce` outcome for the user-created event. -/
  produce : Option String

/-- `(s *UserService).CreateUser`.  The source's local `newUser` (the
request's fields over a zero-valued `User`, whose password the hash then
replaces) is inlined into the `hashPassword` and `create` call sites. -/
def CreateUser (d : CreateUserDeps) (req : CreateUserRequest) : SvcCall :=
  if d.validateOk = false then ⟨Except.error SvcError.validation, false⟩
  else
    match d.getByEmail req.email with
    | (some _, none) => ⟨Except.error SvcError.conflictEmail, false⟩
    | _ =>
      match d.hashPassword req.password with
      | none => ⟨Except.error SvcError.internalHash, false⟩
      | some hp =>
        match d.create
            { emptyUser with email := req.email, name := req.name, password := hp } with
        | (_, some e) => ⟨Except.error (SvcError.repo e), false⟩
        | (stored, none) =>
          match d.produce with
          | some _ => ⟨Except.ok (ToPublic stored), true⟩
          | none => ⟨Except.ok (ToPublic stored), false⟩

/-- `(s *UserService).GetUser`: fetch by id, return the public projection. -/
def GetUser (getByID : String → Except SvcError User) (id : String) :
    Except SvcError User :=
  match getByID id with
  | Except.error e => Except.error e
  | Except.ok u => Except.ok (ToPublic u)

/-- Collaborator-call outcomes consumed by `UpdateUser`. `getByID n` is the
outcome of the n-th `repo.GetByID` call of the request (the repository
state may change between calls). -/
structure UpdateUserDeps where
  validateOk : Bool
  getByID : Nat → String → Except SvcError User
  update : Option SvcError
  produce : Option String

/-- `(s *UserService).UpdateUser`. -/
def UpdateUser (d : UpdateUserDeps) (id : String) (req : UpdateUserRequest) : SvcCall :=
  if d.validateOk = false then ⟨Except.error SvcError.validation, false⟩
  else
    match d.getByID 0 id with
    | Except.error e => ⟨Except.error e, false⟩
    | Except.ok _ =>
      if ((if req.name ≠ "" then [("name", req.name)] else []) ++
          (if req.email ≠ "" then [("email", req.email)] else [])).length = 0 then
        ⟨GetUser (d.getByID 1) id, false⟩
      else
        match d.update with
        | some e => ⟨Except.error e, false⟩
        | none =>
          match d.getByID 1 id with
          | Except.error e => ⟨Except.error e, false⟩
          | Except.ok updatedUser =>
            match d.produce with
            | some _ => ⟨Except.ok (ToPublic updatedUser), true⟩
            | none => ⟨Except.ok (ToPublic updatedUser), false⟩

/-- `(s *UserService).ListUsers`: normalize paging, fetch, and map every
row through `ToPublic`. `list limit offset` is the `repo.List` outcome;
the source's normalized locals `page`, `pageSize` and `offset` are inlined
into the call site. -/
def ListUsers (list : Int → Int → Except SvcError (List User × Int))
    (page pageSize : Int) : Except SvcError (List User × Int) :=
  match list (if pageSize < 1 || pageSize > 100 then 20 else pageSize)
      (((if page < 1 then 1 else page) - 1) *
        (if pageSize < 1 || pageSize > 100 then 20 else pageSize)) with
  | Except.error e => Except.error e
  | Except.ok (users, total) => Except.ok (users.map ToPublic, total)

/-! ### Concrete scenario inputs used to evaluate the definitions -/

/-- A broker whose every write attempt fails. -/
def brokerDownC1 : Nat → Option String := fun _ => some "broker unavailable"

/-- A registry with one handler, for type `"evt"`, that fails on every invocation. -/
def handlersC2 : String → Option Handler :=
  fun s => if s = "evt" then some (fun _ => some "boom") else none

/-- A registry with no handlers at all. -/
def emptyRegistryC3 : String → Option Handler := fun _ => none

/-- A registry with one handler, for type `"user.created"`, that succeeds immediately. -/
def handlersC4 : String → Option Handler :=
  fun s => if s = "user.created" then some (fun _ => none) else none

/-- A pending booking of resource `room-1` over `[600, 660)` (minutes). -/
def bkA : Booking :=
  { id := "b1", userID := "u1", resourceID := "room-1"
    startTime := 600, endTime := 660, status := BookingStatus.pending
    amount := 0, currency := "USD", paymentID := none, reservationID := none
    notes := "", metadata := "", createdAt := 0, updatedAt := 0
    userName := "", userEmail := "", resourceName := "" }

/-- A confirmed booking of the same resource over `[630, 690)`. -/
def bkB : Booking :=
  { bkA with
    id := "b2", status := BookingStatus.confirmed
    startTime := 630, endTime := 690 }

/-- A booking of the same resource over `[660, 720)`, adjacent to `bkA`. -/
def bkC : Booking :=
  { bkA with id := "b3", startTime := 660, endTime := 720 }

/-- A broker whose every write attempt fails (cancellation scenario). -/
def brokerDownC6 : Nat → Option String := fun _ => some "write failed"

/-- A registry with one handler, for type `"evt"`, that fails on every
invocation (cancellation scenario). -/
def handlersC6 : String → Option Handler :=
  fun s => if s = "evt" then some (fun _ => some "handler failed") else none

/-- Collaborator outcomes for a `CreateUser` call whose repository write
succeeds: no user exists under the email, hashing prefixes `bcrypt:`, and
the repository assigns id `user-1` and timestamps. -/
def depsC9 : CreateUserDeps :=
  { validateOk := true
    getByEmail := fun _ => (none, some "user not found")
    hashPassword := fun s => some ("bcrypt:" ++ s)
    create := fun u => ({ u with id := "user-1", createdAt := 5, updatedAt := 5 }, none)
    produce := none }

/-- The request of the `CreateUser` scenario. -/
def reqC9 : CreateUserRequest := { email := "a@b.c", name := "Alice", password := "pw" }

/-- The user as stored by `depsC9.create` for `reqC9`. -/
def storedC9 : User :=
  { emptyUser with
    id := "user-1", email := "a@b.c", name := "Alice"
    password := "bcrypt:pw", createdAt := 5, updatedAt := 5 }

/-- A stored user whose password field holds a bcrypt hash. -/
def userC10 : User :=
  { emptyUser with
    id := "u-1", email := "x@y.z", name := "Xan"
    password := "bcrypt-hash", role := "admin", active := true }

/-! ## Theorems -/

/-- C1: Contrary to the claim, `Produce` returns success even though every
broker write attempt failed.  With a broker that fails all
`producerMaxRetries` (3) attempts and no cancellation, the trace shows all
three write attempts were made, yet `writeWithRetry` returns a nil error —
the loop's `err :=` shadows the outer `err`, so the final `return err`
yields the never-assigned nil — and `Produce` therefore reports success
instead of an Unavailable-kind error wrapping the last write error. -/
theorem produce_success_after_all_writes_fail :
    Produce true brokerDownC1 none "user.created" = ProduceResult.success ∧
    (writeWithRetry brokerDownC1 none producerMaxRetries).1 = none ∧
    (writeWithRetry brokerDownC1 none producerMaxRetries).2 =
      [Ev.attempt 0, Ev.wait 1, Ev.attempt 1, Ev.wait 2, Ev.attempt 2] := by
  refine ⟨rfl, rfl, rfl⟩

/-- C5: `IsOverlapping a b` is true iff the two bookings are on the same
resource and their half-open intervals `[startTime, endTime)` intersect
(stated for bookings satisfying the data-model invariant
`endTime > startTime`); bookings that merely share a boundary instant are
never overlapping. -/
theorem isOverlapping_iff_intervals_intersect :
    (∀ a b : Booking, a.startTime < a.endTime → b.startTime < b.endTime →
      (Booking.IsOverlapping a b = true ↔
        a.resourceID = b.resourceID ∧
          ∃ t : ℤ, (a.startTime ≤ t ∧ t < a.endTime) ∧
            (b.startTime ≤ t ∧ t < b.endTime))) ∧
    (∀ a b : Booking, a.endTime = b.startTime → Booking.IsOverlapping a b = false) := by
  constructor
  · intro a b ha hb
    simp only [Booking.IsOverlapping, Bool.and_eq_true, beq_iff_eq, decide_eq_true_eq]
    constructor
    · rintro ⟨⟨hres, h1⟩, h2⟩
      exact ⟨hres, max a.startTime b.startTime,
        ⟨le_max_left _ _, max_lt ha h2⟩, le_max_right _ _, max_lt h1 hb⟩
    · rintro ⟨hres, t, ⟨hat, hat'⟩, hbt, hbt'⟩
      exact ⟨⟨hres, lt_of_le_of_lt hat hbt'⟩, lt_of_le_of_lt hbt hat'⟩
  · intro a b h
    simp [Booking.IsOverlapping, h]

/-- Witness for C5: `bkA = [600,660)` and `bkB = [630,690)` on the same
resource overlap, while the adjacent `bkA = [600,660)` and `bkC = [660,720)`
do not. -/
theorem isOverlapping_iff_witness :
    Booking.IsOverlapping bkA bkB = true ∧ Booking.IsOverlapping bkA bkC = false :=
  ⟨(isOverlapping_iff_intervals_intersect.1 bkA bkB (by decide) (by decide)).mpr
      ⟨rfl, 630, ⟨by decide, by decide⟩, by decide, by decide⟩,
    isOverlapping_iff_intervals_intersect.2 bkA bkC rfl⟩

/-- C2: when the resolved type has a registered handler that fails on every
invocation, `processWithRetry` invokes it exactly `consumerMaxRetries` (3)
times, waiting 1 second between the first and second attempt and 2 seconds
between the second and third with no wait after the final attempt, and
then abandons the message with an error wrapping the last handler error;
moreover a successful invocation at any point of the loop stops it
immediately. -/
theorem handler_retry_bound (handlers : String → Option Handler)
    (value : Payload) (headers : List (String × String)) (h : Handler)
    (hreg : handlers (resolveMessageType value headers) = some h) :
    ((∀ n, (h n).isSome) →
      processWithRetry handlers none value headers =
        (ProcResult.exhausted consumerMaxRetries (h 2),
         [Ev.resolve (resolveMessageType value headers), Ev.invoke 0, Ev.wait 1,
          Ev.resolve (resolveMessageType value headers), Ev.invoke 1, Ev.wait 2,
          Ev.resolve (resolveMessageType value headers), Ev.invoke 2])) ∧
    (∀ fuel i elapsed err, h i = none →
      procLoop handlers none value headers consumerMaxRetries (fuel + 1) i elapsed err =
        (ProcResult.ok, [Ev.resolve (resolveMessageType value headers), Ev.invoke i])) := by
  constructor
  · intro hfail
    obtain ⟨e0, he0⟩ := Option.isSome_iff_exists.mp (hfail 0)
    obtain ⟨e1, he1⟩ := Option.isSome_iff_exists.mp (hfail 1)
    obtain ⟨e2, he2⟩ := Option.isSome_iff_exists.mp (hfail 2)
    simp [processWithRetry, consumerMaxRetries, procLoop, hreg, he0, he1, he2,
      cancelledDuring]
  · intro fuel i elapsed err hi
    cases fuel with
    | zero => simp [procLoop, hreg, hi]
    | succ f => simp [procLoop, hreg, hi]

/-- Witness for C2: a handler for `"evt"` failing every call with `"boom"`
is invoked three times with 1s and 2s waits and the message is abandoned. -/
theorem handler_retry_bound_witness :
    processWithRetry handlersC2 none (Payload.undecodable "junk") [("message-type", "evt")] =
      (ProcResult.exhausted consumerMaxRetries (some "boom"),
       [Ev.resolve "evt", Ev.invoke 0, Ev.wait 1, Ev.resolve "evt", Ev.invoke 1,
        Ev.wait 2, Ev.resolve "evt", Ev.invoke 2]) :=
  (handler_retry_bound handlersC2 (Payload.undecodable "junk") [("message-type", "evt")]
      (fun _ => some "boom") rfl).1 (fun _ => rfl)

/-- C3: when the resolved message type has no registered handler — in
particular when resolution yields `""` because the `message-type` header is
absent and the payload is undecodable — `processWithRetry` makes exactly
one dispatch attempt (one `resolve` event), invokes no handler, performs no
backoff wait, and fails immediately with the handler-not-found error. -/
theorem handler_not_found_fails_without_retry :
    (∀ (handlers : String → Option Handler) (cancelAt : Option Nat)
        (value : Payload) (headers : List (String × String)),
      handlers (resolveMessageType value headers) = none →
      processWithRetry handlers cancelAt value headers =
        (ProcResult.noHandler (resolveMessageType value headers),
         [Ev.resolve (resolveMessageType value headers)])) ∧
    (∀ raw : String, resolveMessageType (Payload.undecodable raw) [] = "") := by
  constructor
  · intro handlers cancelAt value headers hnone
    simp [processWithRetry, consumerMaxRetries, procLoop, hnone]
  · intro raw
    rfl

/-- Witness for C3: with an empty registry and an undecodable payload with
no headers, the message fails at once with `noHandler ""`. -/
theorem handler_not_found_witness :
    processWithRetry emptyRegistryC3 none (Payload.undecodable "junk") [] =
      (ProcResult.noHandler "", [Ev.resolve ""]) :=
  handler_not_found_fails_without_retry.1 emptyRegistryC3 none
    (Payload.undecodable "junk") [] rfl

/-- C6: in both retry loops, a cancellation that fires strictly before a
backoff wait completes makes the loop return the cancellation error at
once: the producer's `writeLoop` yields `cancelled` with no completed-wait
event and no further attempts, and the consumer's `procLoop` yields
`cancelled` right after the failed invocation, likewise with no wait event
and no further invocations. -/
theorem cancellation_aborts_backoff :
    (∀ (broker : Nat → Option String) (tc f i elapsed : Nat)
        (outerErr : Option String) (e : String),
      broker i = some e → tc < elapsed + (i + 1) →
      writeLoop broker (some tc) (f + 2) i elapsed outerErr =
        (some GoError.cancelled, [Ev.attempt i])) ∧
    (∀ (handlers : String → Option Handler) (tc f i elapsed : Nat)
        (err : Option String) (value : Payload) (headers : List (String × String))
        (h : Handler) (e : String),
      handlers (resolveMessageType value headers) = some h → h i = some e →
      tc < elapsed + (i + 1) →
      procLoop handlers (some tc) value headers consumerMaxRetries (f + 2) i elapsed err =
        (ProcResult.cancelled,
         [Ev.resolve (resolveMessageType value headers), Ev.invoke i])) := by
  constructor
  · intro broker tc f i elapsed outerErr e hb htc
    simp [writeLoop, hb, cancelledDuring, htc]
  · intro handlers tc f i elapsed err value headers h e hreg hi htc
    simp [procLoop, hreg, hi, cancelledDuring, htc]

/-- Witness for C6: a context already cancelled when the first backoff
starts aborts both the producer write loop and the consumer dispatch loop
right after the first failed attempt. -/
theorem cancellation_aborts_backoff_witness :
    writeWithRetry brokerDownC6 (some 0) producerMaxRetries =
      (some GoError.cancelled, [Ev.attempt 0]) ∧
    processWithRetry handlersC6 (some 0) (Payload.undecodable "x")
        [("message-type", "evt")] =
      (ProcResult.cancelled, [Ev.resolve "evt", Ev.invoke 0]) :=
  ⟨cancellation_aborts_backoff.1 brokerDownC6 0 1 0 0 none "write failed" rfl (by decide),
    cancellation_aborts_backoff.2 handlersC6 0 1 0 0 none (Payload.undecodable "x")
      [("message-type", "evt")] (fun _ => some "handler failed") "handler failed"
      rfl rfl (by decide)⟩

/-- C7: message-type resolution prefers a present, non-empty
`message-type` header over the payload; only when that header value is
empty does it fall back to the payload's `type` field, and the first
dispatch step of `processWithRetry` always resolves (and dispatches by)
exactly that resolved type. -/
theorem message_type_prefers_header :
    (∀ (value : Payload) (headers : List (String × String)),
      goMapGet headers "message-type" ≠ "" →
      resolveMessageType value headers = goMapGet headers "message-type") ∧
    (∀ (value : Payload) (headers : List (String × String)),
      goMapGet headers "message-type" = "" →
      resolveMessageType value headers = payloadTypeField value) ∧
    (∀ (handlers : String → Option Handler) (value : Payload)
        (headers : List (String × String)),
      (processWithRetry handlers none value headers).2.head? =
        some (Ev.resolve (resolveMessageType value headers))) := by
  refine ⟨?_, ?_, ?_⟩
  · intro value headers hne
    simp [resolveMessageType, hne]
  · intro value headers he
    simp [resolveMessageType, he]
  · intro handlers value headers
    cases hreg : handlers (resolveMessageType value headers) with
    | none => simp [processWithRetry, consumerMaxRetries, procLoop, hreg]
    | some h =>
      cases hi : h 0 with
      | none => simp [processWithRetry, consumerMaxRetries, procLoop, hreg, hi]
      | some e =>
        simp [processWithRetry, consumerMaxRetries, procLoop, hreg, hi, cancelledDuring]

/-- Witness for C7: a message whose header says `"A"` while its payload's
`type` field says `"B"` resolves to `"A"`; with the header absent the same
payload resolves to `"B"`. -/
theorem message_type_prefers_header_witness :
    resolveMessageType (Payload.json (Json.obj [("type", Json.str "B")]))
        [("message-type", "A")] = "A" ∧
    resolveMessageType (Payload.json (Json.obj [("type", Json.str "B")])) [] = "B" :=
  ⟨message_type_prefers_header.1 (Payload.json (Json.obj [("type", Json.str "B")]))
      [("message-type", "A")] (by decide),
    message_type_prefers_header.2.1 (Payload.json (Json.obj [("type", Json.str "B")]))
      [] rfl⟩

/-- C4 counterexample: a payload that is missing `id`, `type`, and `data`
(the empty JSON object) but arrives with a `message-type` header whose
type has a registered handler is dispatched to that handler — the trace
records the invocation and the message is processed as well-formed — so
the consumer does not reject payloads missing those fields. -/
theorem consumer_dispatches_incomplete_payload :
    processWithRetry handlersC4 none (Payload.json (Json.obj []))
        [("message-type", "user.created")] =
      (ProcResult.ok, [Ev.resolve "user.created", Ev.invoke 0]) := by
  rfl

/-- C4 amended: the consumer performs no payload-shape validation.
Whenever the resolved message type has a registered handler the payload is
dispatched to it regardless of which fields it has, and unknown additional
fields are tolerated: resolution depends only on the payload's `type`
field (and the headers), so adding or removing any other field changes
nothing. -/
theorem consumer_payload_validation_absent :
    (∀ (handlers : String → Option Handler) (value : Payload)
        (headers : List (String × String)) (h : Handler),
      handlers (resolveMessageType value headers) = some h →
      ∃ rest, (processWithRetry handlers none value headers).2 =
        Ev.resolve (resolveMessageType value headers) :: Ev.invoke 0 :: rest) ∧
    (∀ (fields fields' : List (String × Json)) (headers : List (String × String)),
      jsonField fields "type" = jsonField fields' "type" →
      resolveMessageType (Payload.json (Json.obj fields)) headers =
        resolveMessageType (Payload.json (Json.obj fields')) headers) := by
  constructor
  · intro handlers value headers h hreg
    cases hi : h 0 with
    | none =>
      exact ⟨[], by simp [processWithRetry, consumerMaxRetries, procLoop, hreg, hi]⟩
    | some e =>
      refine ⟨Ev.wait 1 ::
        (procLoop handlers none value headers consumerMaxRetries 2 1 1 (some e)).2, ?_⟩
      simp [processWithRetry, consumerMaxRetries, procLoop, hreg, hi, cancelledDuring]
  · intro fields fields' headers hty
    simp [resolveMessageType, payloadTypeField, hty]

/-- Witness for C4 (amended): the empty-object payload with a
`message-type` header is dispatched (its trace starts with the resolution
and the first handler invocation). -/
theorem consumer_payload_validation_absent_witness :
    ∃ rest, (processWithRetry handlersC4 none (Payload.json (Json.obj []))
        [("message-type", "user.created")]).2 =
      Ev.resolve "user.created" :: Ev.invoke 0 :: rest :=
  consumer_payload_validation_absent.1 handlersC4 (Payload.json (Json.obj []))
    [("message-type", "user.created")] (fun _ => none) rfl

/-- All rounds of `Start` under a context that never cancels leave the loop
running, whatever the per-message outcomes were. -/
theorem startRun_no_cancel_keeps_running (procErr : Nat → Option String) :
    ∀ fuel k, ∃ l, StartRun none procErr fuel k = StartOutcome.running l := by
  intro fuel
  induction fuel with
  | zero => intro k; exact ⟨[], rfl⟩
  | succ f ih =>
    intro k
    obtain ⟨l, hl⟩ := ih (k + 1)
    cases hp : procErr k with
    | none => exact ⟨l, by simp [StartRun, cancelFired, hp, hl]⟩
    | some e =>
      exact ⟨e :: l, by simp [StartRun, cancelFired, hp, hl, StartOutcome.addLog]⟩

/-- C8: the `Start` loop never returns because of per-message failures —
with no cancellation it is still running after any number of rounds, the
failures merely logged — and once the governing context fires (round `c`,
reached within the observed rounds) `Start` returns that context's
cancellation error. -/
theorem start_returns_only_on_cancellation (procErr : Nat → Option String) :
    (∀ fuel k e l, StartRun none procErr fuel k ≠ StartOutcome.returned e l) ∧
    (∀ c fuel k, 1 ≤ fuel → c < k + fuel →
      ∃ l, StartRun (some c) procErr fuel k =
        StartOutcome.returned GoError.cancelled l) := by
  constructor
  · intro fuel k e l hcontra
    obtain ⟨l', hl'⟩ := startRun_no_cancel_keeps_running procErr fuel k
    rw [hl'] at hcontra
    exact StartOutcome.noConfusion hcontra
  · intro c fuel
    induction fuel with
    | zero => intro k h1 _; exact absurd h1 (by decide)
    | succ f ih =>
      intro k _ hlt
      by_cases hck : c ≤ k
      · exact ⟨[], by simp [StartRun, cancelFired, hck]⟩
      · have h1f : 1 ≤ f := by omega
        have hlt' : c < (k + 1) + f := by omega
        obtain ⟨l, hl⟩ := ih (k + 1) h1f hlt'
        cases hp : procErr k with
        | none => exact ⟨l, by simp [StartRun, cancelFired, hck, hp, hl]⟩
        | some e =>
          exact ⟨e :: l,
            by simp [StartRun, cancelFired, hck, hp, hl, StartOutcome.addLog]⟩

/-- Witness for C8: four rounds of always-failing processing do not make
`Start` return, while a context firing at round 2 makes it return the
cancellation error within five rounds. -/
theorem start_returns_only_on_cancellation_witness :
    (StartRun none (fun _ => some "proc failure") 4 0 ≠
      StartOutcome.returned GoError.cancelled []) ∧
    ∃ l, StartRun (some 2) (fun _ => some "proc failure") 5 0 =
      StartOutcome.returned GoError.cancelled l :=
  ⟨(start_returns_only_on_cancellation (fun _ => some "proc failure")).1 4 0
      GoError.cancelled [],
    (start_returns_only_on_cancellation (fun _ => some "proc failure")).2 2 5 0
      (by decide) (by decide)⟩

/-- C9: when the repository write succeeds, a failing event publish is only
logged: `CreateUser` still returns the created (public) user with no
error, with exactly the same result as when the publish succeeds — only
the publish-failure log line distinguishes the two runs. -/
theorem createUser_publish_failure_not_rolled_back
    (d : CreateUserDeps) (req : CreateUserRequest) (stored : User) (hp e : String)
    (hv : d.validateOk = true)
    (hnc : (d.getByEmail req.email).1 = none ∨ (d.getByEmail req.email).2.isSome)
    (hh : d.hashPassword req.password = some hp)
    (hc : d.create
        { emptyUser with email := req.email, name := req.name, password := hp } =
      (stored, none)) :
    CreateUser { d with produce := some e } req = ⟨Except.ok (ToPublic stored), true⟩ ∧
    CreateUser { d with produce := none } req = ⟨Except.ok (ToPublic stored), false⟩ := by
  have hc' : d.create
      { id := "", email := req.email, name := req.name, password := hp, role := ""
        active := false, createdAt := 0, updatedAt := 0 } = (stored, none) := hc
  have key : ∀ p : Option String,
      CreateUser { d with produce := p } req =
        ⟨Except.ok (ToPublic stored), p.isSome⟩ := by
    intro p
    rcases hge : d.getByEmail req.email with ⟨ou, oe⟩
    rcases ou with _ | u
    · cases p <;> simp [CreateUser, hv, hge, hh, hc', emptyUser]
    · rcases oe with _ | s
      · rw [hge] at hnc
        rcases hnc with hcon | hcon
        · exact absurd hcon (by simp)
        · exact absurd hcon (by simp)
      · cases p <;> simp [CreateUser, hv, hge, hh, hc', emptyUser]
  exact ⟨key (some e), key none⟩

/-- Witness for C9: with `depsC9` (write succeeds) the call returns the
public projection of the stored user in both runs; only the log flag
records the failed publish. -/
theorem createUser_publish_failure_witness :
    CreateUser { depsC9 with produce := some "kafka down" } reqC9 =
      ⟨Except.ok (ToPublic storedC9), true⟩ ∧
    CreateUser { depsC9 with produce := none } reqC9 =
      ⟨Except.ok (ToPublic storedC9), false⟩ :=
  createUser_publish_failure_not_rolled_back depsC9 reqC9 storedC9 "bcrypt:pw"
    "kafka down" rfl (Or.inl rfl) rfl rfl

/-- Every successful `CreateUser` result is the `ToPublic` projection of
some user. -/
theorem createUser_result_shape (d : CreateUserDeps) (req : CreateUserRequest) :
    (∃ er, (CreateUser d req).result = Except.error er) ∨
    (∃ v, (CreateUser d req).result = Except.ok (ToPublic v)) := by
  unfold CreateUser
  repeat' split
  all_goals first
    | exact Or.inl ⟨_, rfl⟩
    | exact Or.inr ⟨_, rfl⟩

/-- Every successful `UpdateUser` result is the `ToPublic` projection of
some user. -/
theorem updateUser_result_shape (d : UpdateUserDeps) (id : String)
    (req : UpdateUserRequest) :
    (∃ er, (UpdateUser d id req).result = Except.error er) ∨
    (∃ v, (UpdateUser d id req).result = Except.ok (ToPublic v)) := by
  unfold UpdateUser GetUser
  repeat' split
  all_goals first
    | exact Or.inl ⟨_, rfl⟩
    | exact Or.inr ⟨_, rfl⟩

/-- C10: every user a successful `CreateUser`, `GetUser` or `UpdateUser`
call returns, and every element of a successful `ListUsers` result, is the
`ToPublic` projection and so has an empty `password` field — the stored
password hash never appears in these results. -/
theorem service_results_hide_password :
    (∀ (d : CreateUserDeps) (req : CreateUserRequest) (u : User),
      (CreateUser d req).result = Except.ok u → u.password = "") ∧
    (∀ (g : String → Except SvcError User) (id : String) (u : User),
      GetUser g id = Except.ok u → u.password = "") ∧
    (∀ (d : UpdateUserDeps) (id : String) (req : UpdateUserRequest) (u : User),
      (UpdateUser d id req).result = Except.ok u → u.password = "") ∧
    (∀ (l : Int → Int → Except SvcError (List User × Int)) (page ps : Int)
        (users : List User) (total : Int),
      ListUsers l page ps = Except.ok (users, total) → ∀ u ∈ users, u.password = "") := by
  refine ⟨?_, ?_, ?_, ?_⟩
  · intro d req u h
    rcases createUser_result_shape d req with ⟨er, he⟩ | ⟨v, hv⟩
    · rw [he] at h; exact absurd h (by simp)
    · rw [hv] at h
      obtain rfl : ToPublic v = u := by exact Except.ok.inj h
      rfl
  · intro g id u h
    unfold GetUser at h
    split at h
    · exact absurd h (by simp)
    · obtain rfl : ToPublic _ = u := Except.ok.inj h
      rfl
  · intro d id req u h
    rcases updateUser_result_shape d id req with ⟨er, he⟩ | ⟨v, hv⟩
    · rw [he] at h; exact absurd h (by simp)
    · rw [hv] at h
      obtain rfl : ToPublic v = u := Except.ok.inj h
      rfl
  · intro l page ps users total h
    unfold ListUsers at h
    split at h
    · exact absurd h (by simp)
    · rename_i users0 total0 heq
      have husers : List.map ToPublic users0 = users :=
        congrArg Prod.fst (Except.ok.inj h)
      subst husers
      intro u hu
      obtain ⟨v, _, rfl⟩ := List.mem_map.mp hu
      rfl

/-- Witness for C10: fetching a stored user whose password field holds a
hash returns a user whose password field is empty. -/
theorem service_results_hide_password_witness :
    (ToPublic userC10).password = "" :=
  service_results_hide_password.2.1 (fun _ => Except.ok userC10) "u-1"
    (ToPublic userC10) rfl

end BookingSystem
